import Mathlib

/-!
A verification development for a small desktop control panel that drives the
`redshift` display-adjustment tool.  The program (Go, `main.go`) exposes three
sliders (temperature, brightness, gamma), debounces their change events into a
single delayed external `redshift` invocation, and offers a reset action that
runs `redshift -x` and restores the sliders to their defaults under a
suppression flag.

The development shallowly embeds:
  * the pure string-level pieces — output trimming, outcome classification for
    the apply and reset paths, and command-line argument construction;
  * an operational model `Sys` of the debounce/cancel control loop — the
    pending debounce timer, the single shared cancellation slot (`u.cancel`),
    the set of running external commands, the suppression flag (`u.silence`),
    and the published status text — with an event-step semantics `step`/`run`.
-/

namespace RedshiftPanel

/-- Models Go's `unicode.IsSpace` (the trimming predicate used by
`strings.TrimSpace`): ASCII whitespace plus the Unicode White_Space
code points. -/
def goIsSpace (c : Char) : Bool :=
  c.toNat = 0x20 || c.toNat = 0x9 || c.toNat = 0xA || c.toNat = 0xB ||
  c.toNat = 0xC || c.toNat = 0xD || c.toNat = 0x85 || c.toNat = 0xA0 ||
  c.toNat = 0x1680 || (0x2000 ≤ c.toNat && c.toNat ≤ 0x200A) ||
  c.toNat = 0x2028 || c.toNat = 0x2029 || c.toNat = 0x202F ||
  c.toNat = 0x205F || c.toNat = 0x3000

/-- Models Go's `strings.TrimSpace`: drop leading and trailing whitespace
(`main.go`, lines 153 and 173 apply it to the combined output). -/
def trimSpace (s : String) : String :=
  String.mk (((s.data.dropWhile goIsSpace).reverse.dropWhile goIsSpace).reverse)

/-- Outcome classification of the apply path (`main.go` lines 153-162).
`deadlineExceeded` models `ctx.Err() == context.DeadlineExceeded`; `err` is
`none` when the process succeeded and `some e` with `e` the Go error
description otherwise; `output` is the combined stdout+stderr text. -/
def applyMsg (deadlineExceeded : Bool) (err : Option String) (output : String) :
    String :=
  let msg := trimSpace output
  if deadlineExceeded then "Timed out applying settings."
  else
    match err with
    | some e => if msg = "" then "redshift error: " ++ e else "redshift error: " ++ msg
    | none => if msg = "" then "Applied." else msg

/-- Outcome classification of the reset path (`main.go` lines 173-180).
Unlike the apply path, the code never consults `ctx.Err()` here, so there is
no deadline parameter: a timed-out reset is classified like any failure. -/
def resetMsg (err : Option String) (output : String) : String :=
  let msg := trimSpace output
  match err with
  | some e => if msg = "" then "reset error: " ++ e else "reset error: " ++ msg
  | none => "Reset to defaults."

/-- Two-decimal fixed-point rendering shared by the code's `%.2f` format
verbs and the spec's `.2f` placeholders (slider values are non-negative). -/
def fmt2 (x : ℚ) : String :=
  let n : ℤ := round (x * 100)
  toString (n / 100) ++ "." ++
    (if (n % 100).toNat < 10 then "0" ++ toString (n % 100).toNat
     else toString (n % 100).toNat)

/-- The argument list built by `apply` (`main.go` lines 138-144): backend
selection, ramp clearing, temperature (`%d`), gamma triple (`%.2f` each),
brightness (`%.2f`). -/
def applyArgs (t : ℤ) (b g : ℚ) : List String :=
  ["-m", "randr",
   "-P",
   "-O", toString t,
   "-g", fmt2 g ++ ":" ++ fmt2 g ++ ":" ++ fmt2 g,
   "-b", fmt2 b]

/-- The argument list of the reset invocation (`main.go` line 171). -/
def resetArgs : List String := ["-x"]

/-- The debounce interval (`main.go` line 20), in nanoseconds
(`250 * time.Millisecond`). -/
def debounce : ℕ := 250 * 1000000

/-- The per-invocation deadline (`main.go` line 21), in nanoseconds
(`3 * time.Second`). -/
def timeout : ℕ := 3 * 1000000000

/-- Modelled from the spec's external-interface line for the apply
invocation: `<tool> -m randr -P -O <temperature:int>
-g <gamma:.2f>:<gamma:.2f>:<gamma:.2f> -b <brightness:.2f>`, written as the
corresponding argument vector. -/
def specApplyArgs (t : ℤ) (b g : ℚ) : List String :=
  ["-m", "randr"] ++ ["-P"] ++
  ["-O", toString t] ++
  ["-g", fmt2 g ++ ":" ++ fmt2 g ++ ":" ++ fmt2 g] ++
  ["-b", fmt2 b]

/-- Modelled from the claim's words for the apply outcome classification,
with the exact literal texts amended to the ones the code produces
(trailing periods): (a) deadline exceeded, (b) failure without output,
(c) failure with output, (d) success without output, (e) success with
output, where "output text" is the whitespace-trimmed combined output. -/
def specApplyMsg (deadlineExceeded : Bool) (err : Option String)
    (output : String) : String :=
  let text := trimSpace output
  if deadlineExceeded then "Timed out applying settings."
  else
    match err with
    | some e => "redshift error: " ++ (if text = "" then e else text)
    | none => if text = "" then "Applied." else text

/-- A parameter snapshot carried by the debounce timer: the truncated
temperature and the exact brightness and gamma values. -/
abbrev Snap := ℤ × ℚ × ℚ

/-- Models Go's `int(x)` conversion (`main.go` line 72): truncation toward
zero. -/
def goInt (q : ℚ) : ℤ := Int.tdiv q.num q.den

/-- One of the three sliders. -/
inductive Param where
  | temp
  | bright
  | gam
deriving DecidableEq

/-- A running external command: its identity, whether it is the reset
invocation (`redshift -x`) or an apply invocation, and whether its
cancellation function has been invoked (process killed). -/
structure Proc where
  pid : ℕ
  isReset : Bool
  cancelled : Bool
deriving DecidableEq

/-- The state of the control loop: the three slider values, the status label
text (`u.out`), the suppression flag (`u.silence`), the pending debounce
timer with its snapshot (`u.timer`), the shared cancellation slot
(`u.cancel`, as the pid it would kill), the running external commands, the
log of apply invocations started, and a fresh-pid counter. -/
structure Sys where
  tempK : ℚ
  brightness : ℚ
  gamma : ℚ
  out : String
  silence : Bool
  timer : Option Snap
  cancelSlot : Option ℕ
  procs : List Proc
  applyCalls : List Snap
  nextPid : ℕ
deriving DecidableEq

/-- The state after `main`'s setup (`main.go` lines 57-119): sliders at their
defaults, status text "Ready." unless the startup `exec.LookPath("redshift")`
check failed, in which case the fixed not-found message is published; no
timer, no running command, no invocation attempted. -/
def initS (redshiftFound : Bool) : Sys :=
  { tempK := 6500
    brightness := 1
    gamma := 1
    out := if redshiftFound then "Ready."
           else "Error: 'redshift' not found in PATH. Install it (e.g., sudo apt install redshift)."
    silence := false
    timer := none
    cancelSlot := none
    procs := []
    applyCalls := []
    nextPid := 0 }

/-- Marking a command killed when the cancellation slot refers to it. -/
def killIfSlot (slot : Option ℕ) (p : Proc) : Proc :=
  if slot = some p.pid then { p with cancelled := true } else p

/-- Invoking `u.cancel()`: the command the slot refers to is killed. -/
def cancelSlotProc (s : Sys) : Sys :=
  { s with procs := s.procs.map (killIfSlot s.cancelSlot) }

/-- `scheduleApply` (`main.go` lines 124-135): invoke and clear the
cancellation slot if occupied, stop any pending timer, and start a fresh
debounce timer carrying the new snapshot. -/
def scheduleApply (s : Sys) (t : ℤ) (b g : ℚ) : Sys :=
  let s1 := if s.cancelSlot.isSome then
              { cancelSlotProc s with cancelSlot := none }
            else s
  { s1 with timer := some (t, b, g) }

/-- The slider change handler `onChange` (`main.go` lines 68-76): return
immediately under suppression, otherwise snapshot the three current values
and call `scheduleApply`. -/
def onChange (s : Sys) : Sys :=
  if s.silence then s
  else scheduleApply s (goInt s.tempK) s.brightness s.gamma

/-- Write one slider's value (the raw field update, before the widget fires
its change callback). -/
def setParam (s : Sys) (p : Param) (v : ℚ) : Sys :=
  match p with
  | .temp => { s with tempK := v }
  | .bright => { s with brightness := v }
  | .gam => { s with gamma := v }

/-- A slider value change: the field update followed by the widget's
`OnChanged` callback, which runs the change handler (this is also what
`LabeledSlider.SetValue` triggers). -/
def setValue (s : Sys) (p : Param) (v : ℚ) : Sys := onChange (setParam s p v)

/-- The debounce timer elapsing (`main.go` lines 132-134 into 137-151): the
callback starts `apply` with the carried snapshot; `apply` stores its own
cancellation function in the shared slot (overwriting, without invoking, any
previous occupant) and launches the external command. -/
def fireTimer (s : Sys) : Sys :=
  match s.timer with
  | none => s
  | some snap =>
    { s with
      timer := none
      cancelSlot := some s.nextPid
      procs := s.procs ++ [⟨s.nextPid, false, false⟩]
      applyCalls := s.applyCalls ++ [snap]
      nextPid := s.nextPid + 1 }

/-- Pressing the reset button (`main.go` lines 65, 166-171): `reset` stores
its cancellation function in the shared slot — overwriting, without invoking,
any previous occupant — and launches `redshift -x`. -/
def startReset (s : Sys) : Sys :=
  { s with
    cancelSlot := some s.nextPid
    procs := s.procs ++ [⟨s.nextPid, true, false⟩]
    nextPid := s.nextPid + 1 }

/-- The `fyne.Do` block of `reset` (`main.go` lines 182-189): set the
suppression flag, restore the three sliders to their defaults (each
`SetValue` fires the change handler, which the flag silences), clear the
flag. -/
def restoreDefaults (s : Sys) : Sys :=
  let s1 := { s with silence := true }
  let s2 := setValue s1 .temp 6500
  let s3 := setValue s2 .bright 1
  let s4 := setValue s3 .gam 1
  { s4 with silence := false }

/-- An external command completing: its `CombinedOutput` call returns with
the given deadline flag, error and combined output, the process leaves the
running set, and the goroutine classifies and publishes the outcome — for
the reset path after restoring the defaults under suppression. -/
def finish (s : Sys) (pid : ℕ) (deadlineExceeded : Bool) (err : Option String)
    (output : String) : Sys :=
  match s.procs.find? (fun p => p.pid == pid) with
  | none => s
  | some p =>
    let s1 := { s with procs := s.procs.filter (fun q => q.pid != pid) }
    if p.isReset then
      { restoreDefaults s1 with out := resetMsg err output }
    else
      { s1 with out := applyMsg deadlineExceeded err output }

/-- The observable events of the control loop. -/
inductive Ev where
  | change (p : Param) (v : ℚ)
  | fire
  | resetPress
  | finish (pid : ℕ) (deadlineExceeded : Bool) (err : Option String)
      (output : String)
deriving DecidableEq

/-- One step of the control loop. -/
def step (s : Sys) : Ev → Sys
  | .change p v => setValue s p v
  | .fire => fireTimer s
  | .resetPress => startReset s
  | .finish pid dl err o => finish s pid dl err o

/-- Running a trace of events. -/
def run (s : Sys) (evs : List Ev) : Sys := evs.foldl step s

/-- The number of external commands currently in flight (running and not
killed). -/
def inFlight (s : Sys) : ℕ := (s.procs.filter fun p => !p.cancelled).length

/-- The change events of a list of slider edits. -/
def changeEvs (cs : List (Param × ℚ)) : List Ev :=
  cs.map fun c => Ev.change c.1 c.2

/-- The value triple of a state. -/
def vals (s : Sys) : ℚ × ℚ × ℚ := (s.tempK, s.brightness, s.gamma)

/-- Updating one component of a value triple. -/
def updVals (v : ℚ × ℚ × ℚ) (c : Param × ℚ) : ℚ × ℚ × ℚ :=
  match c.1 with
  | .temp => (c.2, v.2.1, v.2.2)
  | .bright => (v.1, c.2, v.2.2)
  | .gam => (v.1, v.2.1, c.2)

/-- The value triple after a sequence of slider edits. -/
def paramFold (v : ℚ × ℚ × ℚ) (cs : List (Param × ℚ)) : ℚ × ℚ × ℚ :=
  cs.foldl updVals v

/-- The snapshot the change handler takes of a value triple. -/
def mkSnap (v : ℚ × ℚ × ℚ) : Snap := (goInt v.1, v.2.1, v.2.2)

/-! ## Helper lemmas -/

/-- Trimming a string of whitespace characters yields the empty string. -/
lemma trimSpace_eq_empty_of_all_space (s : String)
    (h : ∀ c ∈ s.data, goIsSpace c = true) : trimSpace s = "" := by
  have hd : s.data.dropWhile goIsSpace = [] :=
    List.dropWhile_eq_nil_iff.mpr fun c hc => h c hc
  simp [trimSpace, hd]

/-- A slider edit outside suppression and with an empty cancellation slot
only updates the edited value and replaces the pending timer with the new
snapshot. -/
lemma setValue_state (s : Sys) (p : Param) (v : ℚ) (hs : s.silence = false)
    (hc : s.cancelSlot = none) :
    (setValue s p v).applyCalls = s.applyCalls ∧
    (setValue s p v).procs = s.procs ∧
    (setValue s p v).silence = false ∧
    (setValue s p v).cancelSlot = none ∧
    (setValue s p v).nextPid = s.nextPid ∧
    vals (setValue s p v) = updVals (vals s) (p, v) ∧
    (setValue s p v).timer = some (mkSnap (updVals (vals s) (p, v))) := by
  cases p <;>
    simp [setValue, onChange, setParam, scheduleApply, hs, hc, vals, updVals,
      mkSnap]

/-- Folding slider edits from a state outside suppression with an empty
cancellation slot: the apply log, running commands, flags and pid counter
are untouched, the values follow the edits, and after at least one edit the
pending timer carries the snapshot of the final values. -/
lemma run_changes (cs : List (Param × ℚ)) (s : Sys) (hs : s.silence = false)
    (hc : s.cancelSlot = none) :
    (run s (changeEvs cs)).applyCalls = s.applyCalls ∧
    (run s (changeEvs cs)).procs = s.procs ∧
    (run s (changeEvs cs)).silence = false ∧
    (run s (changeEvs cs)).cancelSlot = none ∧
    (run s (changeEvs cs)).nextPid = s.nextPid ∧
    vals (run s (changeEvs cs)) = paramFold (vals s) cs ∧
    (cs ≠ [] →
      (run s (changeEvs cs)).timer = some (mkSnap (paramFold (vals s) cs))) := by
  induction cs generalizing s with
  | nil =>
    refine ⟨rfl, rfl, hs, hc, rfl, rfl, ?_⟩
    intro h
    exact absurd rfl h
  | cons c rest ih =>
    obtain ⟨h1, h2, h3, h4, h5, h6, h7⟩ := setValue_state s c.1 c.2 hs hc
    have hrun : run s (changeEvs (c :: rest)) =
        run (setValue s c.1 c.2) (changeEvs rest) := rfl
    obtain ⟨g1, g2, g3, g4, g5, g6, g7⟩ := ih (setValue s c.1 c.2) h3 h4
    have hfold : paramFold (vals s) (c :: rest) =
        paramFold (updVals (vals s) c) rest := rfl
    rw [hrun, hfold, ← h6]
    refine ⟨g1.trans h1, g2.trans h2, g3, g4, g5.trans h5, g6, ?_⟩
    intro _
    by_cases hrest : rest = []
    · subst hrest
      simpa [run, changeEvs, paramFold, h6] using h7
    · exact g7 hrest

lemma killIfSlot_pid (slot : Option ℕ) (p : Proc) :
    (killIfSlot slot p).pid = p.pid := by
  unfold killIfSlot; split <;> rfl

lemma killIfSlot_cancelled_false (slot : Option ℕ) (p : Proc)
    (h : (killIfSlot slot p).cancelled = false) :
    p.cancelled = false ∧ slot ≠ some p.pid := by
  by_cases hs : slot = some p.pid
  · simp [killIfSlot, hs] at h
  · simp only [killIfSlot, hs, if_false] at h
    exact ⟨h, hs⟩

/-- The shared-cancellation-slot invariant maintained by the debounce path:
pids are fresh-bounded and distinct, every live (non-killed) command is the
one the slot refers to, and while a debounce timer is pending no command is
live. -/
def SlotInv (s : Sys) : Prop :=
  (∀ p ∈ s.procs, p.pid < s.nextPid) ∧
  (∀ p ∈ s.procs, p.cancelled = false → s.cancelSlot = some p.pid) ∧
  (s.timer ≠ none → ∀ p ∈ s.procs, p.cancelled = true) ∧
  s.procs.Pairwise fun p q => p.pid ≠ q.pid

lemma slotInv_scheduleApply (s : Sys) (t : ℤ) (b g : ℚ) (h : SlotInv s) :
    SlotInv (scheduleApply s t b g) := by
  obtain ⟨h1, h2, h3, h4⟩ := h
  by_cases hc : s.cancelSlot.isSome
  · simp only [scheduleApply, cancelSlotProc, hc, if_true]
    refine ⟨?_, ?_, ?_, ?_⟩
    · intro p hp
      obtain ⟨q, hq, rfl⟩ := List.mem_map.mp hp
      rw [killIfSlot_pid]
      exact h1 q hq
    · intro p hp hpc
      obtain ⟨q, hq, rfl⟩ := List.mem_map.mp hp
      obtain ⟨hq0, hqs⟩ := killIfSlot_cancelled_false s.cancelSlot q hpc
      exact (hqs (h2 q hq hq0)).elim
    · intro _ p hp
      obtain ⟨q, hq, rfl⟩ := List.mem_map.mp hp
      by_cases hqs : s.cancelSlot = some q.pid
      · simp [killIfSlot, hqs]
      · have hq1 : q.cancelled = true := by
          by_contra hq0
          exact hqs (h2 q hq (by simpa using hq0))
        simpa [killIfSlot, hqs] using hq1
    · rw [List.pairwise_map]
      exact h4.imp fun hab => by simpa [killIfSlot_pid] using hab
  · simp only [scheduleApply, hc, if_false]
    refine ⟨h1, fun p hp hpc => h2 p hp hpc, ?_, h4⟩
    intro _ p hp
    by_contra hp1
    have := h2 p hp (by simpa using hp1)
    rw [this] at hc
    exact hc rfl

lemma slotInv_setValue (s : Sys) (p : Param) (v : ℚ) (h : SlotInv s) :
    SlotInv (setValue s p v) := by
  have hsp : SlotInv (setParam s p v) := by
    cases p <;> simpa [SlotInv, setParam] using h
  by_cases hsil : (setParam s p v).silence
  · simpa [setValue, onChange, hsil] using hsp
  · simpa [setValue, onChange, hsil] using
      slotInv_scheduleApply (setParam s p v) _ _ _ hsp

lemma slotInv_fireTimer (s : Sys) (h : SlotInv s) : SlotInv (fireTimer s) := by
  obtain ⟨h1, h2, h3, h4⟩ := h
  cases ht : s.timer with
  | none => simpa [fireTimer, ht] using ⟨h1, h2, h3, h4⟩
  | some snap =>
    have hall : ∀ p ∈ s.procs, p.cancelled = true := h3 (by simp [ht])
    simp only [fireTimer, ht]
    refine ⟨?_, ?_, ?_, ?_⟩
    · intro p hp
      rcases List.mem_append.mp hp with hp | hp
      · exact Nat.lt_succ_of_lt (h1 p hp)
      · rw [List.mem_singleton.mp hp]
        exact Nat.lt_succ_self _
    · intro p hp hpc
      rcases List.mem_append.mp hp with hp | hp
      · rw [hall p hp] at hpc
        exact Bool.noConfusion hpc
      · rw [List.mem_singleton.mp hp]
    · intro hnn
      exact absurd rfl hnn
    · refine List.pairwise_append.mpr ⟨h4, List.pairwise_singleton _ _, ?_⟩
      intro a ha b hb
      rw [List.mem_singleton.mp hb]
      exact Nat.ne_of_lt (h1 a ha)

/-- The `fyne.Do` block of `reset` touches only the slider values, the
suppression flag and (not here) the status text: the timer, the slot, the
running commands, the apply log and the pid counter pass through. -/
lemma restoreDefaults_core (s : Sys) :
    (restoreDefaults s).procs = s.procs ∧
    (restoreDefaults s).cancelSlot = s.cancelSlot ∧
    (restoreDefaults s).timer = s.timer ∧
    (restoreDefaults s).nextPid = s.nextPid ∧
    (restoreDefaults s).applyCalls = s.applyCalls ∧
    (restoreDefaults s).out = s.out := by
  simp [restoreDefaults, setValue, onChange, setParam]

/-- Completing a command only removes it from the running set and rewrites
the status text (for reset, additionally the slider values and the
suppression flag): the timer, the slot and the pid counter pass through. -/
lemma finish_core (s : Sys) (pid : ℕ) (dl : Bool) (err : Option String)
    (o : String) :
    List.Sublist (finish s pid dl err o).procs s.procs ∧
    (finish s pid dl err o).cancelSlot = s.cancelSlot ∧
    (finish s pid dl err o).timer = s.timer ∧
    (finish s pid dl err o).nextPid = s.nextPid ∧
    (finish s pid dl err o).applyCalls = s.applyCalls := by
  unfold finish
  cases hf : s.procs.find? (fun p => p.pid == pid) with
  | none => exact ⟨List.Sublist.refl _, rfl, rfl, rfl, rfl⟩
  | some p =>
    by_cases hr : p.isReset <;>
      simp [hr, restoreDefaults, setValue, onChange, setParam,
        List.filter_sublist]

lemma slotInv_finish (s : Sys) (pid : ℕ) (dl : Bool) (err : Option String)
    (o : String) (h : SlotInv s) : SlotInv (finish s pid dl err o) := by
  obtain ⟨h1, h2, h3, h4⟩ := h
  obtain ⟨hs, hc, ht, hn, -⟩ := finish_core s pid dl err o
  refine ⟨?_, ?_, ?_, h4.sublist hs⟩
  · intro p hp
    rw [hn]
    exact h1 p (hs.subset hp)
  · intro p hp hpc
    rw [hc]
    exact h2 p (hs.subset hp) hpc
  · intro hnn p hp
    exact h3 (by rw [ht] at hnn; exact hnn) p (hs.subset hp)

lemma slotInv_step (s : Sys) (e : Ev) (he : e ≠ Ev.resetPress)
    (h : SlotInv s) : SlotInv (step s e) := by
  cases e with
  | change p v => exact slotInv_setValue s p v h
  | fire => exact slotInv_fireTimer s h
  | resetPress => exact absurd rfl he
  | finish pid dl err o => exact slotInv_finish s pid dl err o h

lemma slotInv_run (evs : List Ev) :
    ∀ s : Sys, SlotInv s → (∀ e ∈ evs, e ≠ Ev.resetPress) →
      SlotInv (run s evs) := by
  induction evs with
  | nil => exact fun s h _ => h
  | cons e rest ih =>
    intro s h hall
    exact ih (step s e) (slotInv_step s e (hall e (by simp)) h)
      fun e' he' => hall e' (by simp [he'])

lemma inFlight_le_one (s : Sys) (h : SlotInv s) : inFlight s ≤ 1 := by
  obtain ⟨-, h2, -, h4⟩ := h
  rcases hll : s.procs.filter (fun p => !p.cancelled) with - | ⟨a, - | ⟨b, rest⟩⟩
  · simp [inFlight, hll]
  · simp [inFlight, hll]
  · exfalso
    have hal : a ∈ s.procs.filter (fun p => !p.cancelled) := by
      rw [hll]; exact List.mem_cons_self _ _
    have hbl : b ∈ s.procs.filter (fun p => !p.cancelled) := by
      rw [hll]; simp
    obtain ⟨hap, hac⟩ := List.mem_filter.mp hal
    obtain ⟨hbp, hbc⟩ := List.mem_filter.mp hbl
    have hsa := h2 a hap (by simpa using hac)
    have hsb := h2 b hbp (by simpa using hbc)
    have hpid : a.pid = b.pid := Option.some.inj (hsa.symm.trans hsb)
    have hpw : (s.procs.filter fun p => !p.cancelled).Pairwise
        (fun p q => p.pid ≠ q.pid) := h4.sublist (List.filter_sublist _)
    rw [hll] at hpw
    exact (List.pairwise_cons.mp hpw).1 b (by simp) hpid

/-! ## Claims -/

/-- C1: for every nonempty sequence of rapid slider edits — all within the
debounce interval, so the timer never fires in between — followed by the
debounce timer elapsing, exactly one apply invocation occurs, and it carries
the temperature, brightness and gamma snapshotted at the last edit (each
`scheduleApply` stops the prior pending timer and starts a fresh one with
the new snapshot). -/
theorem debounce_coalesces_to_last_snapshot (cs : List (Param × ℚ))
    (hne : cs ≠ []) :
    (run (initS true) (changeEvs cs ++ [Ev.fire])).applyCalls =
      [mkSnap (paramFold (6500, 1, 1) cs)] := by
  obtain ⟨h1, _, _, _, _, _, h7⟩ := run_changes cs (initS true) rfl rfl
  have hsplit : run (initS true) (changeEvs cs ++ [Ev.fire]) =
      fireTimer (run (initS true) (changeEvs cs)) := by
    simp [run, List.foldl_append, step]
  have hv : vals (initS true) = ((6500 : ℚ), (1 : ℚ), (1 : ℚ)) := rfl
  rw [hsplit, fireTimer, h7 hne, hv, h1]
  simp [initS]

/-- C1 witness: two rapid edits (temperature to 3000, then brightness to
0.5) produce exactly one apply invocation, with the final snapshot. -/
theorem debounce_coalesces_to_last_snapshot_witness :
    ([(Param.temp, (3000 : ℚ)), (Param.bright, 1/2)] ≠
      ([] : List (Param × ℚ))) ∧
    (run (initS true)
        (changeEvs [(Param.temp, (3000 : ℚ)), (Param.bright, 1/2)] ++
          [Ev.fire])).applyCalls =
      [mkSnap (paramFold (6500, 1, 1)
        [(Param.temp, (3000 : ℚ)), (Param.bright, 1/2)])] :=
  ⟨by decide,
    debounce_coalesces_to_last_snapshot
      [(Param.temp, (3000 : ℚ)), (Param.bright, 1/2)] (by decide)⟩

/-- C3 counterexample: pressing reset while an apply is in flight does not
cancel it — `reset` overwrites the shared cancellation slot without invoking
the previous cancel function — so after slider edit, debounce expiry and a
reset press, two external commands are in flight at once, refuting "at every
instant at most one external command invocation is in flight". -/
theorem reset_leaves_prior_apply_running_cex :
    inFlight (run (initS true)
      [Ev.change .temp 3000, Ev.fire, Ev.resetPress]) = 2 ∧
    ¬ inFlight (run (initS true)
      [Ev.change .temp 3000, Ev.fire, Ev.resetPress]) ≤ 1 := by
  refine ⟨by decide, by decide⟩

/-- C3 (amended): on the debounce path the guarantee holds — in every trace
without a reset press, at most one external command is in flight at any
instant, because `scheduleApply` always invokes the shared cancellation slot
(terminating the prior command) before starting a new cycle; `reset`,
however, overwrites the slot without cancelling, so an apply in flight when
reset starts keeps running alongside it. -/
theorem no_reset_traces_single_inflight (evs : List Ev)
    (h : ∀ e ∈ evs, e ≠ Ev.resetPress) :
    inFlight (run (initS true) evs) ≤ 1 :=
  inFlight_le_one _
    (slotInv_run evs (initS true) (by simp [SlotInv, initS]) h)

/-- C3 witness: a concrete no-reset trace keeps at most one command in
flight. -/
theorem no_reset_traces_single_inflight_witness :
    (∀ e ∈ [Ev.change .temp 3000, Ev.fire, Ev.change .bright (1/2), Ev.fire],
      e ≠ Ev.resetPress) ∧
    inFlight (run (initS true)
      [Ev.change .temp 3000, Ev.fire, Ev.change .bright (1/2), Ev.fire]) ≤ 1 :=
  ⟨by decide,
    no_reset_traces_single_inflight
      [Ev.change .temp 3000, Ev.fire, Ev.change .bright (1/2), Ev.fire]
      (by decide)⟩

/-- C4 counterexample: a superseded apply's result does reach the status
text.  After an apply starts and a newer slider edit cancels it, the killed
process's completion is still classified and published: the status text
becomes "redshift error: signal: killed".  (The third conjunct shows the
command had indeed been cancelled before completing.) -/
theorem superseded_apply_reaches_status_cex :
    (run (initS true) [Ev.change .temp 3000, Ev.fire, Ev.change .temp 4000,
      Ev.finish 0 false (some "signal: killed") ""]).out =
        "redshift error: signal: killed" ∧
    (run (initS true) [Ev.change .temp 3000, Ev.fire, Ev.change .temp 4000,
      Ev.finish 0 false (some "signal: killed") ""]).out ≠ (initS true).out ∧
    (run (initS true) [Ev.change .temp 3000, Ev.fire,
      Ev.change .temp 4000]).procs = [⟨0, false, true⟩] := by
  refine ⟨by decide, by decide, by decide⟩

/-- C4 (amended): when a running apply is cancelled because a newer change
superseded it, its result is NOT discarded: the completion of the killed
command is classified like any other apply completion and its message is
published to the status text. -/
theorem cancelled_apply_still_publishes (s : Sys) (pid : ℕ) (dl : Bool)
    (err : Option String) (o : String) (p : Proc)
    (hf : s.procs.find? (fun q => q.pid == pid) = some p)
    (hr : p.isReset = false) (_hc : p.cancelled = true) :
    (finish s pid dl err o).out = applyMsg dl err o := by
  simp [finish, hf, hr]

/-- C4 witness: the concrete superseded apply of the counterexample trace
publishes its classified error message. -/
theorem cancelled_apply_still_publishes_witness :
    (run (initS true) [Ev.change .temp 3000, Ev.fire,
        Ev.change .temp 4000]).procs.find? (fun q => q.pid == 0) =
      some ⟨0, false, true⟩ ∧
    (Proc.mk 0 false true).isReset = false ∧
    (Proc.mk 0 false true).cancelled = true ∧
    (finish (run (initS true) [Ev.change .temp 3000, Ev.fire,
        Ev.change .temp 4000]) 0 false (some "signal: killed") "").out =
      applyMsg false (some "signal: killed") "" :=
  ⟨by decide, rfl, rfl,
    cancelled_apply_still_publishes _ 0 false (some "signal: killed") ""
      ⟨0, false, true⟩ (by decide) rfl rfl⟩

/-- C5: while the suppression flag is set the change handler returns
immediately with no side effect, and `reset` brackets its three
parameter-restoring writes with the flag, so the restoration performed when
a reset completes never schedules an apply: the pending-timer slot and the
apply-invocation log are exactly as before the completion. -/
theorem suppression_blocks_restoration_schedule (s s' : Sys) (pid : ℕ)
    (dl : Bool) (err : Option String) (o : String) (p : Proc)
    (hsil : s'.silence = true)
    (hf : s.procs.find? (fun q => q.pid == pid) = some p)
    (hr : p.isReset = true) :
    onChange s' = s' ∧
    (finish s pid dl err o).timer = s.timer ∧
    (finish s pid dl err o).applyCalls = s.applyCalls := by
  obtain ⟨-, -, ht, -, ha, -⟩ := restoreDefaults_core
    { s with procs := s.procs.filter (fun q => q.pid != pid) }
  refine ⟨by simp [onChange, hsil], ?_, ?_⟩ <;>
    simp [finish, hf, hr, ht, ha]

/-- C5 witness: a concrete suppressed state and a concrete completing reset
command. -/
theorem suppression_blocks_restoration_schedule_witness :
    ({ initS true with silence := true } : Sys).silence = true ∧
    (run (initS true) [Ev.resetPress]).procs.find? (fun q => q.pid == 0) =
      some ⟨0, true, false⟩ ∧
    (Proc.mk 0 true false).isReset = true ∧
    (onChange { initS true with silence := true } =
        { initS true with silence := true } ∧
      (finish (run (initS true) [Ev.resetPress]) 0 false none "").timer =
        (run (initS true) [Ev.resetPress]).timer ∧
      (finish (run (initS true) [Ev.resetPress]) 0 false none "").applyCalls =
        (run (initS true) [Ev.resetPress]).applyCalls) :=
  ⟨rfl, by decide, rfl,
    suppression_blocks_restoration_schedule (run (initS true) [Ev.resetPress])
      { initS true with silence := true } 0 false none "" ⟨0, true, false⟩
      rfl (by decide) rfl⟩

/-- C6 counterexample: on a successful reset the code publishes
"Reset to defaults." (trailing period), not the claim's exact text
"Reset to defaults". -/
theorem reset_status_text_period_cex :
    (run (initS true) [Ev.resetPress, Ev.finish 0 false none ""]).out =
      "Reset to defaults." ∧
    (run (initS true) [Ev.resetPress, Ev.finish 0 false none ""]).out ≠
      "Reset to defaults" := by
  refine ⟨by decide, by decide⟩

/-- C6 (amended): whenever a reset invocation completes — whatever the prior
slider positions and whether the external command succeeded or failed — the
suppression flag is set, temperature is written to 6500, brightness and
gamma to 1.00, the flag is cleared, and then the status message is
published: "Reset to defaults." (trailing period) on success, an error
description on failure. -/
theorem reset_completion_restores_defaults (s : Sys) (pid : ℕ) (dl : Bool)
    (err : Option String) (o : String) (p : Proc)
    (hf : s.procs.find? (fun q => q.pid == pid) = some p)
    (hr : p.isReset = true) :
    (finish s pid dl err o).tempK = 6500 ∧
    (finish s pid dl err o).brightness = 1 ∧
    (finish s pid dl err o).gamma = 1 ∧
    (finish s pid dl err o).silence = false ∧
    (finish s pid dl err o).out = resetMsg err o ∧
    (err = none → (finish s pid dl err o).out = "Reset to defaults.") := by
  refine ⟨?_, ?_, ?_, ?_, ?_, ?_⟩ <;>
    simp [finish, hf, hr, restoreDefaults, setValue, onChange, setParam,
      resetMsg]
  intro he
  simp [he]

/-- C6 witness: a failing concrete reset still restores the defaults and
publishes the error description. -/
theorem reset_completion_restores_defaults_witness :
    (run (initS true) [Ev.change .temp 2000, Ev.resetPress]).procs.find?
        (fun q => q.pid == 0) = some ⟨0, true, false⟩ ∧
    (Proc.mk 0 true false).isReset = true ∧
    ((finish (run (initS true) [Ev.change .temp 2000, Ev.resetPress]) 0 false
        (some "exit status 1") "").tempK = 6500 ∧
      (finish (run (initS true) [Ev.change .temp 2000, Ev.resetPress]) 0 false
        (some "exit status 1") "").brightness = 1 ∧
      (finish (run (initS true) [Ev.change .temp 2000, Ev.resetPress]) 0 false
        (some "exit status 1") "").gamma = 1 ∧
      (finish (run (initS true) [Ev.change .temp 2000, Ev.resetPress]) 0 false
        (some "exit status 1") "").silence = false ∧
      (finish (run (initS true) [Ev.change .temp 2000, Ev.resetPress]) 0 false
        (some "exit status 1") "").out =
          resetMsg (some "exit status 1") "" ∧
      (some "exit status 1" = none →
        (finish (run (initS true) [Ev.change .temp 2000, Ev.resetPress]) 0
          false (some "exit status 1") "").out = "Reset to defaults.")) :=
  ⟨by decide, rfl,
    reset_completion_restores_defaults
      (run (initS true) [Ev.change .temp 2000, Ev.resetPress]) 0 false
      (some "exit status 1") "" ⟨0, true, false⟩ (by decide) rfl⟩

/-- C7 counterexample: a timed-out reset is not surfaced as a dedicated
timeout message and is not treated distinctly from an ordinary exit
failure: with the deadline exceeded the published text is
"reset error: signal: killed" — identical to the text for an ordinary
failure with the same error, and not the timeout message used by the apply
path. -/
theorem reset_timeout_not_distinguished_cex :
    (run (initS true)
      [Ev.resetPress, Ev.finish 0 true (some "signal: killed") ""]).out =
        "reset error: signal: killed" ∧
    (run (initS true)
      [Ev.resetPress, Ev.finish 0 true (some "signal: killed") ""]).out =
      (run (initS true)
        [Ev.resetPress, Ev.finish 0 false (some "signal: killed") ""]).out ∧
    (run (initS true)
      [Ev.resetPress, Ev.finish 0 true (some "signal: killed") ""]).out ≠
        "Timed out applying settings." := by
  refine ⟨by decide, by decide, by decide⟩

/-- C7 (amended): the reset invocation runs `redshift -x` under the same
bounded 3-second deadline as the apply path (so a timed-out process is
terminated), but its outcome classification never consults the deadline: a
reset completion is classified identically whether or not the deadline was
exceeded, so a timeout is surfaced as an ordinary "reset error: ..."
message rather than a dedicated timeout message. -/
theorem reset_has_deadline_but_no_timeout_branch (s : Sys) (pid : ℕ)
    (dl dl' : Bool) (err : Option String) (o : String) (p : Proc)
    (hf : s.procs.find? (fun q => q.pid == pid) = some p)
    (hr : p.isReset = true) :
    resetArgs = ["-x"] ∧
    timeout = 3 * 1000000000 ∧
    finish s pid dl err o = finish s pid dl' err o := by
  refine ⟨rfl, rfl, ?_⟩
  simp [finish, hf, hr]

/-- C7 witness: a concrete reset completion is insensitive to the deadline
flag. -/
theorem reset_has_deadline_but_no_timeout_branch_witness :
    (run (initS true) [Ev.resetPress]).procs.find? (fun q => q.pid == 0) =
      some ⟨0, true, false⟩ ∧
    (Proc.mk 0 true false).isReset = true ∧
    (resetArgs = ["-x"] ∧
      timeout = 3 * 1000000000 ∧
      finish (run (initS true) [Ev.resetPress]) 0 true
          (some "signal: killed") "" =
        finish (run (initS true) [Ev.resetPress]) 0 false
          (some "signal: killed") "") :=
  ⟨by decide, rfl,
    reset_has_deadline_but_no_timeout_branch (run (initS true) [Ev.resetPress])
      0 true false (some "signal: killed") "" ⟨0, true, false⟩ (by decide) rfl⟩

/-- C2 counterexample: the claim fixes the deadline-exceeded status text as
"Timed out applying settings", but the code produces "Timed out applying
settings." (trailing period); likewise "Applied." rather than "Applied". -/
theorem apply_status_text_period_cex :
    applyMsg true none "" = "Timed out applying settings." ∧
    applyMsg true none "" ≠ "Timed out applying settings" ∧
    applyMsg false none "" = "Applied." ∧
    applyMsg false none "" ≠ "Applied" := by
  refine ⟨rfl, by decide, rfl, by decide⟩

/-- C2 (amended): for every completed apply invocation, the status message
follows the claimed priority order — (a) deadline exceeded, (b) failure with
no (trimmed) output, (c) failure with output, (d) success with no output,
(e) success with output — with the exact texts "Timed out applying
settings.", "redshift error: " prefix, and "Applied." (trailing periods),
the output text being the whitespace-trimmed combined output. -/
theorem apply_outcome_classification (dl : Bool) (err : Option String)
    (output : String) : applyMsg dl err output = specApplyMsg dl err output := by
  cases dl <;> cases err <;>
    simp only [applyMsg, specApplyMsg] <;>
    by_cases h : trimSpace output = "" <;> simp [h]

/-- C8: the apply invocation's argument vector is exactly the one the spec
prescribes: `-m randr -P -O <t:int> -g <g:.2f>:<g:.2f>:<g:.2f> -b <b:.2f>`,
in that order. -/
theorem apply_args_match_spec (t : ℤ) (b g : ℚ) :
    applyArgs t b g = specApplyArgs t b g := rfl

/-- C9: when the external tool is not resolvable at startup, the status text
is the fixed not-found message before any user interaction, and the startup
check itself attempts no invocation (no running command, no apply call). -/
theorem startup_not_found_message :
    (initS false).out =
      "Error: 'redshift' not found in PATH. Install it (e.g., sudo apt install redshift)." ∧
    (initS false).procs = [] ∧ (initS false).applyCalls = [] ∧
    (initS true).out = "Ready." := by
  refine ⟨rfl, rfl, rfl, rfl⟩

/-- C10: in both the apply and reset classifications, the combined output is
trimmed first, so whitespace-only output behaves exactly like empty output:
success falls back to the fixed applied/reset texts, and failure with
whitespace-only output falls back to the underlying error description. -/
theorem whitespace_only_output_treated_as_empty (dl : Bool) (e output : String)
    (h : ∀ c ∈ output.data, goIsSpace c = true) :
    applyMsg dl (some e) output = applyMsg dl (some e) "" ∧
    applyMsg dl none output = applyMsg dl none "" ∧
    resetMsg (some e) output = resetMsg (some e) "" ∧
    resetMsg none output = resetMsg none "" ∧
    applyMsg false none output = "Applied." ∧
    resetMsg none output = "Reset to defaults." ∧
    applyMsg false (some e) output = "redshift error: " ++ e ∧
    resetMsg (some e) output = "reset error: " ++ e := by
  have ht : trimSpace output = "" := trimSpace_eq_empty_of_all_space output h
  have h0 : trimSpace "" = "" := rfl
  cases dl <;> simp [applyMsg, resetMsg, ht, h0]

/-- C10 witness: the classification of a concrete whitespace-only output. -/
theorem whitespace_only_output_treated_as_empty_witness :
    (∀ c ∈ ("  \t ").data, goIsSpace c = true) ∧
    (applyMsg false (some "exit status 1") "  \t " =
        applyMsg false (some "exit status 1") "" ∧
      applyMsg false none "  \t " = applyMsg false none "" ∧
      resetMsg (some "exit status 1") "  \t " =
        resetMsg (some "exit status 1") "" ∧
      resetMsg none "  \t " = resetMsg none "" ∧
      applyMsg false none "  \t " = "Applied." ∧
      resetMsg none "  \t " = "Reset to defaults." ∧
      applyMsg false (some "exit status 1") "  \t " =
        "redshift error: " ++ "exit status 1" ∧
      resetMsg (some "exit status 1") "  \t " =
        "reset error: " ++ "exit status 1") :=
  ⟨by decide, whitespace_only_output_treated_as_empty false "exit status 1"
    "  \t " (by decide)⟩

end RedshiftPanel
